import Mathlib

/-!
# Verification of the BS boot chain

A shallow embedding of the load-bearing pieces of the BS x86_64 boot chain:
the GDT segment-descriptor builders (`src/lib/common/src/gdt.rs`, identical to
`src/bootloader/src/gdt.rs`), the ELF file-header validator
(`src/lib/frieren/src/lib.rs`), the sentinel-scanning disk program loader
(`src/boot/bootstrapper/src/main.rs` with `src/lib/common/src/disks.rs`),
the page-map entry setters and builders (`src/lib/common/src/paging.rs`,
`src/bootloader/src/paging.rs`), and the real-to-long-mode transition
sequence (`enable_64_bit_mode` in `src/bootloader/src/main.rs`).

Machine integers are modelled as `Nat` with explicit wrap-around (`% 2 ^ w`)
exactly where the Rust types can overflow. Rust `panic!` calls become
`Option`/`Except` failures. The one BIOS loop that can run forever takes
explicit fuel.
-/

/-! ## GDT segment descriptor builders (src/lib/common/src/gdt.rs) -/

/-- `U20_MAX` from gdt.rs: the largest value of the 20-bit `limit` field,
`0b0000_0000_0000_1111_1111_1111_1111_1111`. -/
def U20_MAX : Nat := 1048575

/-- Byte `i` of the little-endian byte representation of a `u32`, as produced
by `u32::to_ne_bytes` on x86. -/
def u32_byte (x i : Nat) : Nat := x / 256 ^ i % 256

/-- `SegmentFlagsBuilder` from gdt.rs. The Rust field `protected` is a Lean
keyword, so it is named `protected_mode` here. -/
structure SegmentFlagsBuilder where
  paged_limit : Bool
  protected_mode : Bool
  long : Bool
  deriving DecidableEq

/-- `SegmentFlagsBuilder::build`: sets bit 7 for `paged_limit`, bit 6 for
`protected`, bit 5 for `long`; panics (here: `none`) when `long` and
`protected` are both requested. -/
def SegmentFlagsBuilder.build (f : SegmentFlagsBuilder) : Option Nat :=
  let r : Nat := 0
  let r := if f.paged_limit then r ||| 128 else r
  let r := if f.protected_mode then r ||| 64 else r
  if f.long then
    if f.protected_mode then none else some (r ||| 32)
  else
    some r

/-- `SegmentAccessBuilder` from gdt.rs. -/
structure SegmentAccessBuilder where
  present : Bool
  privilege : Nat
  non_system : Bool
  executable : Bool
  direction_conforming : Bool
  read_write : Bool
  accessed : Bool
  deriving DecidableEq

/-- `SegmentAccessBuilder::build`: bit 7 `present`, bits 5-6 the privilege
(0-3, panicking - here `none` - above 3), bit 4 `non_system`, bit 3
`executable`, bit 2 `direction_conforming`, bit 1 `read_write`,
bit 0 `accessed`. -/
def SegmentAccessBuilder.build (a : SegmentAccessBuilder) : Option Nat :=
  let r : Nat := if a.present then 0 ||| 128 else 0
  let r? : Option Nat :=
    match a.privilege with
    | 0 => some r
    | 1 => some (r ||| 32)
    | 2 => some (r ||| 64)
    | 3 => some (r ||| 96)
    | _ => none
  match r? with
  | none => none
  | some r =>
    let r := if a.non_system then r ||| 16 else r
    let r := if a.executable then r ||| 8 else r
    let r := if a.direction_conforming then r ||| 4 else r
    let r := if a.read_write then r ||| 2 else r
    let r := if a.accessed then r ||| 1 else r
    some r

/-- `SegmentDescriptorBuilder` from gdt.rs. `base` is a `u32`
(callers guarantee `base < 2 ^ 32`); `limit` is a `u32` checked against
`U20_MAX` by `build`. -/
structure SegmentDescriptorBuilder where
  base : Nat
  limit : Nat
  flags : SegmentFlagsBuilder
  access : SegmentAccessBuilder
  deriving DecidableEq

/-- `SegmentDescriptorBuilder::build`: panics (here `none`) when
`limit > U20_MAX`, otherwise emits the 8 bytes
`[base[0], flags | (limit >> 4)[0], access, base[1], base[2], base[3],
(limit >> 4)[1], (limit >> 4)[2]]` exactly as the Rust array literal does. -/
def SegmentDescriptorBuilder.build (b : SegmentDescriptorBuilder) : Option (List Nat) :=
  if b.limit > U20_MAX then none
  else
    match b.flags.build, b.access.build with
    | some f, some a =>
      let limit := b.limit >>> 4
      some [u32_byte b.base 0, f ||| u32_byte limit 0, a,
            u32_byte b.base 1, u32_byte b.base 2, u32_byte b.base 3,
            u32_byte limit 1, u32_byte limit 2]
    | _, _ => none

/-- Decode function for the byte layout actually emitted by
`SegmentDescriptorBuilder::build`, written to test the round-trip property of
spec section 8. It reads the base from bytes 0/3/4/5, the access byte from
byte 2, the flag bits from bits 5-7 of byte 1, and the limit from the
remaining bits of bytes 1 and 6 (shifted back up by 4). -/
def spec_decode_descriptor (d : List Nat) : SegmentDescriptorBuilder :=
  { base := d.getD 0 0 + 256 * d.getD 3 0 + 65536 * d.getD 4 0 +
      16777216 * d.getD 5 0
    limit := (d.getD 1 0 % 32 + 256 * d.getD 6 0) * 16
    flags :=
      { paged_limit := (d.getD 1 0).testBit 7
        protected_mode := (d.getD 1 0).testBit 6
        long := (d.getD 1 0).testBit 5 }
    access :=
      { present := (d.getD 2 0).testBit 7
        privilege := d.getD 2 0 / 32 % 4
        non_system := (d.getD 2 0).testBit 4
        executable := (d.getD 2 0).testBit 3
        direction_conforming := (d.getD 2 0).testBit 2
        read_write := (d.getD 2 0).testBit 1
        accessed := (d.getD 2 0).testBit 0 } }

/-! ## ELF file-header validation (src/lib/frieren) -/

/-- `Bitness` from structs.rs (`X32 = 1`, `X64 = 2`). -/
inductive Bitness where
  | X32
  | X64
  deriving DecidableEq

/-- `Endianess` from structs.rs (`Little = 1`, `Big = 2`). -/
inductive Endianess where
  | Little
  | Big
  deriving DecidableEq

/-- `Endianess::NATIVE`: the target is x86, which is little-endian. -/
def Endianess.NATIVE : Endianess := .Little

/-- `ABI` from structs.rs. -/
inductive ABI where
  | SystemV
  | HPUX
  | NetBSD
  | Linux
  | Hurd
  | Solaris
  | AIX
  | IRIX
  | FreeBSD
  | Tru64
  | NovellModesto
  | OpenBSD
  | OpenVMS
  | NonStopKernel
  | AROS
  | FenixOS
  | NuxiCloud
  | OpenVOS
  deriving DecidableEq

/-- `ObjectType` from structs.rs. `Exectuable` keeps the source's spelling. -/
inductive ObjectType where
  | None
  | Relocatable
  | Exectuable
  | Dyn
  | Core
  deriving DecidableEq

/-- `Header` from lib.rs: which header kind a `BadHeaderSize` error names. -/
inductive Header where
  | Section
  | Program
  | File
  deriving DecidableEq

/-- `ElfError` from lib.rs. -/
inductive ElfError where
  | NoMagicBytes
  | Bitness32
  | BadEndianness
  | BadABI
  | BadVersion
  | BadHeaderSize (h : Header)
  deriving DecidableEq

/-- `FileHeader` from structs.rs (integer fields as `Nat`; `padding`
omitted as it carries no information). -/
structure FileHeader where
  magic_bytes : List Nat
  bitness : Bitness
  endianess : Endianess
  header_version : Nat
  abi : ABI
  abi_version : Nat
  object_type : ObjectType
  instruction_set : Nat
  elf_version : Nat
  entry_point : Nat
  program_table_offset : Nat
  section_table_offset : Nat
  flags : Nat
  size : Nat
  program_header_size : Nat
  program_table_entries : Nat
  section_header_size : Nat
  section_table_entries : Nat
  section_names_index : Nat
  deriving DecidableEq

/-- `mem::size_of::<SectionHeader>()` for the `repr(packed)` struct of
structs.rs: 4+4+8+8+8+8+4+4+8+8 = 64 bytes. -/
def SectionHeader.size_of : Nat := 64

/-- `mem::size_of::<ProgramHeader>()` for the `repr(packed)` struct of
structs.rs: 4+4+8+8+8+8+8+8 = 56 bytes. -/
def ProgramHeader.size_of : Nat := 56

/-- `mem::size_of::<FileHeader>()` for the `repr(packed)` struct of
structs.rs: 16 (identifier incl. padding bytes) + 2+2+1+8+8+8+4+2+2+2+2+2+2
= 61 bytes. -/
def FileHeader.size_of : Nat := 61

/-- `FileHeader::try_from_raw` from lib.rs: the validation if-chain, in the
source's order. The raw-pointer dereference is out of the model; validation
starts from an already-read header value. -/
def FileHeader.try_from_raw (h : FileHeader) : Except ElfError FileHeader :=
  if h.magic_bytes ≠ [0x7F, 0x45, 0x4C, 0x46] then .error .NoMagicBytes
  else if h.bitness ≠ .X64 then .error .Bitness32
  else if h.endianess ≠ Endianess.NATIVE then .error .BadEndianness
  else if h.elf_version ≠ 1 ∨ h.header_version ≠ 1 then .error .BadVersion
  else if h.abi ≠ .SystemV then .error .BadABI
  else if h.section_header_size ≠ SectionHeader.size_of then
    .error (.BadHeaderSize .Section)
  else if h.program_header_size ≠ ProgramHeader.size_of then
    .error (.BadHeaderSize .Program)
  else if h.size ≠ FileHeader.size_of then .error (.BadHeaderSize .File)
  else .ok h

/-- `FileHeader::section_table_range` from lib.rs: the (inclusive start,
exclusive end) byte range of the section table,
`(offset, offset + size_of::<SectionHeader>() * entries)`. -/
def FileHeader.section_table_range (h : FileHeader) : Nat × Nat :=
  (h.section_table_offset,
   h.section_table_offset + SectionHeader.size_of * h.section_table_entries)

/-! ## Disk program loader (src/boot/bootstrapper/src/main.rs)

The bootstrapper's wired-in `load_program` reads one sector at a time with
`common::disks::read_sectors`, which post-increments the LBA (a `u64`) by the
sector count and the destination offset (a `u16`) by 512 bytes per sector,
then re-checks the trailing 4 bytes of the sector just read against the
sentinel `0xDEADBEEF`. A disk is modelled as the function from an LBA to the
32-bit word formed by the last 4 bytes of that sector; the loop takes fuel
because a sentinel-free disk loops forever. -/

/-- The mutable locals of `load_program`, plus the ghost list `reads` of every
LBA for which a BIOS read was issued. -/
structure LoadProgramState where
  sector : Nat
  address : Nat
  sig : Nat
  reads : List Nat
  deriving DecidableEq

/-- The `while sig != 0xdeadbeef` loop of `load_program`: on each iteration
`read_sectors` reads sector `sector` to `address`, advances `sector` by 1
(wrapping as `u64`) and `address` by 512 (wrapping as `u16`), and the caller
then loads `sig` from the 4 bytes below the advanced address - the trailing
4 bytes of the sector just read. `none` means the fuel ran out. -/
def load_program_loop (disk : Nat → Nat) : Nat → LoadProgramState →
    Option LoadProgramState
  | 0, _ => none
  | fuel + 1, s =>
    if s.sig = 0xDEADBEEF then some s
    else
      load_program_loop disk fuel
        { sector := (s.sector + 1) % 2 ^ 64
          address := (s.address + 512) % 2 ^ 16
          sig := disk s.sector
          reads := s.reads ++ [s.sector] }

/-- `load_program(sector)`: runs the scan loop from destination `0x7E00` with
`sig` initialised to 0, and returns the final value of `sector` cast to `u16`
(`sector as _`), together with the ghost read list. -/
def load_program (disk : Nat → Nat) (sector fuel : Nat) :
    Option (Nat × List Nat) :=
  (load_program_loop disk fuel
      { sector := sector, address := 0x7E00, sig := 0, reads := [] }).map
    fun s => (s.sector % 2 ^ 16, s.reads)

/-! ## Page-map entries (src/lib/common/src/paging.rs)

The `page_map_type!` macro expands to the very same inherent impl for each of
`PageMapLevel4Entry`, `PageDirectoryPointerTableEntry`, `PageDirectoryEntry`
and `PageTableEntry`: a newtype over `u64` with the setters below. The
setters are modelled once, in the namespace `PageMapEntry`, standing for all
four generated types. -/

/-- The `bitbool!` macro: `if b { var |= 1 << pos } else { var ^= 1 << pos }`.
Note the else-branch XOR-toggles the bit instead of clearing it. -/
def bitbool (b : Bool) (pos : Nat) (var : Nat) : Nat :=
  if b then var ||| 1 <<< pos else var ^^^ 1 <<< pos

/-- The `inverse_bitbool!` macro: `if !b { var |= 1 << pos } else
{ var ^= 1 << pos }`. -/
def inverse_bitbool (b : Bool) (pos : Nat) (var : Nat) : Nat :=
  if !b then var ||| 1 <<< pos else var ^^^ 1 <<< pos

/-- `set_present` (bit 0) as generated by `page_map_type!`. -/
def PageMapEntry.set_present (e : Nat) (present : Bool) : Nat :=
  bitbool present 0 e

/-- `set_writable` (bit 1) as generated by `page_map_type!`. -/
def PageMapEntry.set_writable (e : Nat) (writable : Bool) : Nat :=
  bitbool writable 1 e

/-- `set_user_mode` (bit 2) as generated by `page_map_type!`. -/
def PageMapEntry.set_user_mode (e : Nat) (user_mode : Bool) : Nat :=
  bitbool user_mode 2 e

/-- `set_write_through_cache` (bit 3) as generated by `page_map_type!`. -/
def PageMapEntry.set_write_through_cache (e : Nat) (write_through : Bool) : Nat :=
  bitbool write_through 3 e

/-- `set_caching` (bit 4, inverted meaning) as generated by
`page_map_type!`. -/
def PageMapEntry.set_caching (e : Nat) (cache_enabled : Bool) : Nat :=
  inverse_bitbool cache_enabled 4 e

/-- `set_accessed` (bit 5) as generated by `page_map_type!`. -/
def PageMapEntry.set_accessed (e : Nat) (accessed : Bool) : Nat :=
  bitbool accessed 5 e

/-- `set_executable` (bit 63, inverted meaning) as generated by
`page_map_type!`. -/
def PageMapEntry.set_executable (e : Nat) (executable : Bool) : Nat :=
  inverse_bitbool executable 63 e

/-- `set_address` as generated by `page_map_type!`: panics (here `none`) when
the address is not 4 KiB-aligned, in debug and release builds alike, and
otherwise ORs the address into the entry. -/
def PageMapEntry.set_address (e : Nat) (address : Nat) : Option Nat :=
  if address % 4096 ≠ 0 then none else some (e ||| address)

/-! ## Page-map entry builders (src/bootloader/src/paging.rs) -/

/-- `PageMapLevel4EntryBuilder` from the bootloader's paging.rs. -/
structure PageMapLevel4EntryBuilder where
  present : Bool
  writable : Bool
  user_mode : Bool
  write_through : Bool
  cache_disabled : Bool
  accessed : Bool
  address : Nat
  execute_disable : Bool
  deriving DecidableEq

/-- `PageMapLevel4EntryBuilder::build`. The alignment panic is guarded by
`#[cfg(debug_assertions)]`, modelled by the `debug_assertions` argument:
release builds (`false`) skip the check and OR the misaligned address in. -/
def PageMapLevel4EntryBuilder.build (debug_assertions : Bool)
    (b : PageMapLevel4EntryBuilder) : Option Nat :=
  let r : Nat := 0
  let r := if b.present then r ||| 1 else r
  let r := if b.writable then r ||| 1 <<< 1 else r
  let r := if b.user_mode then r ||| 1 <<< 2 else r
  let r := if b.write_through then r ||| 1 <<< 3 else r
  let r := if b.cache_disabled then r ||| 1 <<< 4 else r
  let r := if b.accessed then r ||| 1 <<< 5 else r
  let r := if b.execute_disable then r ||| 1 <<< 63 else r
  if debug_assertions ∧ b.address % 4096 ≠ 0 then none
  else some (r ||| b.address)

/-- `PageDirectoryPointerTableEntryBuilder` from the bootloader's paging.rs
(also aliased as `PageDirectoryEntryBuilder`). -/
structure PageDirectoryPointerTableEntryBuilder where
  present : Bool
  writable : Bool
  user_mode : Bool
  write_through : Bool
  cache_disabled : Bool
  accessed : Bool
  dirty : Bool
  direct_map : Bool
  global : Bool
  pat : Bool
  address : Nat
  protection_key : Option Nat
  execute_disable : Bool
  deriving DecidableEq

/-- `PageDirectoryPointerTableEntryBuilder::build`. The PAT and
protection-key panics are debug-only; the address is ORed in with no
alignment check at all (the source carries a
`TODO: Should probably check address alignment`). -/
def PageDirectoryPointerTableEntryBuilder.build (debug_assertions : Bool)
    (b : PageDirectoryPointerTableEntryBuilder) : Option Nat :=
  let r : Nat := 0
  let r := if b.present then r ||| 1 else r
  let r := if b.writable then r ||| 1 <<< 1 else r
  let r := if b.user_mode then r ||| 1 <<< 2 else r
  let r := if b.write_through then r ||| 1 <<< 3 else r
  let r := if b.cache_disabled then r ||| 1 <<< 4 else r
  let r := if b.accessed then r ||| 1 <<< 5 else r
  let r := if b.dirty then r ||| 1 <<< 6 else r
  let r := if b.direct_map then r ||| 1 <<< 7 else r
  let r := if b.global then r ||| 1 <<< 8 else r
  if b.pat ∧ debug_assertions ∧ ¬b.direct_map then none
  else
    let r := if b.pat then r ||| 1 <<< 12 else r
    match b.protection_key with
    | some key =>
      if debug_assertions ∧ key > 15 then none
      else
        let r := r ||| key <<< 62
        let r := if b.execute_disable then r ||| 1 <<< 63 else r
        some (r ||| b.address)
    | none =>
      let r := if b.execute_disable then r ||| 1 <<< 63 else r
      some (r ||| b.address)

/-- `PageTableEntryBuilder` from the bootloader's paging.rs. -/
structure PageTableEntryBuilder where
  present : Bool
  writable : Bool
  user_mode : Bool
  write_through : Bool
  cache_disabled : Bool
  accessed : Bool
  dirty : Bool
  pat : Bool
  global : Bool
  address : Nat
  protection_key : Option Nat
  execute_disable : Bool
  deriving DecidableEq

/-- `PageTableEntryBuilder::build`. There is no alignment check in any build
mode, and the `address` field is never ORed into the result at all: the
function returns only the flag and protection-key bits. -/
def PageTableEntryBuilder.build (debug_assertions : Bool)
    (b : PageTableEntryBuilder) : Option Nat :=
  let r : Nat := 0
  let r := if b.present then r ||| 1 else r
  let r := if b.writable then r ||| 1 <<< 1 else r
  let r := if b.user_mode then r ||| 1 <<< 2 else r
  let r := if b.write_through then r ||| 1 <<< 3 else r
  let r := if b.cache_disabled then r ||| 1 <<< 4 else r
  let r := if b.accessed then r ||| 1 <<< 5 else r
  let r := if b.dirty then r ||| 1 <<< 6 else r
  let r := if b.pat then r ||| 1 <<< 7 else r
  let r := if b.global then r ||| 1 <<< 8 else r
  match b.protection_key with
  | some key =>
    if debug_assertions ∧ key > 15 then none
    else
      let r := r ||| key <<< 59
      let r := if b.execute_disable then r ||| 1 <<< 63 else r
      some r
  | none =>
    let r := if b.execute_disable then r ||| 1 <<< 63 else r
    some r

/-! ## Mode-transition sequence (src/bootloader/src/main.rs) -/

/-- `GDTDescriptor` from gdt.rs: the (base address, size - 1) pair loaded by
`lgdt`. -/
structure GDTDescriptor where
  offset : Nat
  size : Nat
  deriving DecidableEq

/-- `build_gdt` from the bootloader's main.rs: the 3-entry GDT - a null
descriptor, an executable long-mode descriptor spanning all memory, and a
read-write long-mode descriptor spanning all memory - as the list of built
8-byte descriptors. `none` would mean one of the builders panicked. -/
def build_gdt : Option (List (List Nat)) :=
  match
    SegmentDescriptorBuilder.build
      { base := 0, limit := U20_MAX
        flags := { paged_limit := true, protected_mode := false, long := true }
        access :=
          { present := true, privilege := 0, non_system := true
            executable := true, direction_conforming := false
            read_write := true, accessed := true } },
    SegmentDescriptorBuilder.build
      { base := 0, limit := U20_MAX
        flags := { paged_limit := true, protected_mode := false, long := true }
        access :=
          { present := true, privilege := 0, non_system := true
            executable := false, direction_conforming := false
            read_write := true, accessed := true } }
  with
  | some exec_desc, some rw_desc =>
    some [[0, 0, 0, 0, 0, 0, 0, 0], exec_desc, rw_desc]
  | _, _ => none

/-- The privileged instructions issued by `enable_64_bit_mode`, in the order
its inline-`asm!` blocks execute. The `lgdt` constructor carries the built
descriptor the source has in scope only as trace data identifying the
instruction; it is not the value GDTR receives (see `Instr.step`). -/
inductive Instr where
  | lgdt (desc : GDTDescriptor)
  | mov_cr3 (addr : Nat)
  | or_cr4 (mask : Nat)
  | or_efer (mask : Nat)
  | or_cr0 (mask : Nat)
  deriving DecidableEq

/-- The CPU state the sequence touches. `gdtr_written` records whether an
`lgdt` has executed; the bytes GDTR actually receives are not tracked,
because the source's operand is `&gdt_descriptor` with `gdt_descriptor`
already a reference - the address of the reference's stack slot, a double
pointer - and `GDTDescriptor` is laid out offset-then-size while `lgdt`
expects a limit-then-base pseudo-descriptor, so the loaded value is unrelated
to the built descriptor's fields. `cs` is the code-segment selector, which
only a far jump could reload - no instruction of this sequence writes it. -/
structure CpuState where
  cr0 : Nat
  cr3 : Nat
  cr4 : Nat
  efer : Nat
  gdtr_written : Bool
  cs : Nat
  deriving DecidableEq

/-- One instruction's effect on the CPU state. `mov cr3, eax` replaces CR3
with a 32-bit value; the read-modify-write sequences on CR4, EFER and CR0
OR a mask in; `lgdt` overwrites GDTR with the 6/10 bytes at its operand
address, which for this program are the bytes of a pointer and its stack
neighbours - the model records only that the write happened. -/
def Instr.step (s : CpuState) : Instr → CpuState
  | .lgdt _ => { s with gdtr_written := true }
  | .mov_cr3 a => { s with cr3 := a % 2 ^ 32 }
  | .or_cr4 m => { s with cr4 := s.cr4 ||| m }
  | .or_efer m => { s with efer := s.efer ||| m }
  | .or_cr0 m => { s with cr0 := s.cr0 ||| m }

/-- Runs an instruction sequence from a starting CPU state. -/
def runInstrs (s : CpuState) (l : List Instr) : CpuState :=
  l.foldl Instr.step s

/-- `enable_64_bit_mode(gdt_descriptor, page_map_level_4)` as the sequence of
privileged instructions its body issues, in source order:
`lgdt [{}]` with `in(reg) &gdt_descriptor` - the address of the reference
parameter, not of the descriptor itself; `mov cr3, eax` with the
page-map-level-4 address; `or eax, (1 << 5)` into CR4 (the PAE bit);
`or eax, 0x00000100` into the EFER MSR 0xC0000080 (the LME bit);
`or eax, 0x80000001` into CR0 (PG and PE together). -/
def enable_64_bit_mode (gdt_descriptor : GDTDescriptor)
    (page_map_level_4 : Nat) : List Instr :=
  [.lgdt gdt_descriptor,
   .mov_cr3 page_map_level_4,
   .or_cr4 (1 <<< 5),
   .or_efer 0x100,
   .or_cr0 0x80000001]

/-- Recognises the `lgdt` step of a trace. -/
def Instr.is_lgdt : Instr → Bool
  | .lgdt _ => true
  | _ => false

/-- Recognises the CR3 load of a trace. -/
def Instr.is_mov_cr3 : Instr → Bool
  | .mov_cr3 _ => true
  | _ => false

/-- Recognises a CR4 write that sets the PAE bit (bit 5). -/
def Instr.sets_pae : Instr → Bool
  | .or_cr4 m => m.testBit 5
  | _ => false

/-- Recognises an EFER write that sets the LME bit (bit 8). -/
def Instr.sets_lme : Instr → Bool
  | .or_efer m => m.testBit 8
  | _ => false

/-- Recognises any CR0 write. -/
def Instr.writes_cr0 : Instr → Bool
  | .or_cr0 _ => true
  | _ => false

/-- Recognises a CR0 write that sets PE (bit 0) and PG (bit 31) together. -/
def Instr.cr0_write_sets_pe_pg : Instr → Bool
  | .or_cr0 m => m.testBit 0 && m.testBit 31
  | _ => false

/-! ## Helper lemmas -/

/-- Exhaustive evaluation of `SegmentFlagsBuilder::build` on valid inputs:
it succeeds, the three flag bits land on bits 7/6/5, and bits 0-4 stay
clear. -/
theorem flags_build_spec : ∀ b1 b2 b3 : Bool, ¬(b3 = true ∧ b2 = true) →
    (SegmentFlagsBuilder.build ⟨b1, b2, b3⟩).isSome = true ∧
    ((SegmentFlagsBuilder.build ⟨b1, b2, b3⟩).getD 0).testBit 7 = b1 ∧
    ((SegmentFlagsBuilder.build ⟨b1, b2, b3⟩).getD 0).testBit 6 = b2 ∧
    ((SegmentFlagsBuilder.build ⟨b1, b2, b3⟩).getD 0).testBit 5 = b3 ∧
    (SegmentFlagsBuilder.build ⟨b1, b2, b3⟩).getD 0 % 32 = 0 ∧
    (SegmentFlagsBuilder.build ⟨b1, b2, b3⟩).getD 0 < 256 := by decide

/-- `SegmentFlagsBuilder::build` panics when `long` and `protected` are both
requested. -/
theorem flags_build_conflict : ∀ b1 : Bool,
    SegmentFlagsBuilder.build ⟨b1, true, true⟩ = none := by decide

/-- Exhaustive evaluation of `SegmentAccessBuilder::build` for the four legal
privilege values: it succeeds and every field is recoverable from the
produced byte. -/
theorem access_build_spec : ∀ p, p < 4 → ∀ b1 b2 b3 b4 b5 b6 : Bool,
    (SegmentAccessBuilder.build ⟨b1, p, b2, b3, b4, b5, b6⟩).isSome = true ∧
    ((SegmentAccessBuilder.build ⟨b1, p, b2, b3, b4, b5, b6⟩).getD 0).testBit 7 = b1 ∧
    (SegmentAccessBuilder.build ⟨b1, p, b2, b3, b4, b5, b6⟩).getD 0 / 32 % 4 = p ∧
    ((SegmentAccessBuilder.build ⟨b1, p, b2, b3, b4, b5, b6⟩).getD 0).testBit 4 = b2 ∧
    ((SegmentAccessBuilder.build ⟨b1, p, b2, b3, b4, b5, b6⟩).getD 0).testBit 3 = b3 ∧
    ((SegmentAccessBuilder.build ⟨b1, p, b2, b3, b4, b5, b6⟩).getD 0).testBit 2 = b4 ∧
    ((SegmentAccessBuilder.build ⟨b1, p, b2, b3, b4, b5, b6⟩).getD 0).testBit 1 = b5 ∧
    ((SegmentAccessBuilder.build ⟨b1, p, b2, b3, b4, b5, b6⟩).getD 0).testBit 0 = b6 := by
  decide

/-- `SegmentAccessBuilder::build` panics when the privilege exceeds 3. -/
theorem access_build_priv_too_big (a : SegmentAccessBuilder)
    (h : 3 < a.privilege) : a.build = none := by
  obtain ⟨n, hn⟩ : ∃ n, a.privilege = n + 4 := ⟨a.privilege - 4, by omega⟩
  simp only [SegmentAccessBuilder.build, hn]

/-- ORing a multiple of 32 below 256 with a value below 32 is ordinary
addition, and the sum's upper bits and low residue separate cleanly. -/
theorem lor_small_disjoint : ∀ f0 < 8, ∀ m < 32,
    32 * f0 ||| m = 32 * f0 + m ∧
    (32 * f0 + m).testBit 7 = (32 * f0).testBit 7 ∧
    (32 * f0 + m).testBit 6 = (32 * f0).testBit 6 ∧
    (32 * f0 + m).testBit 5 = (32 * f0).testBit 5 ∧
    (32 * f0 + m) % 32 = m := by decide

/-! ## Claim theorems -/

/-- C10: on a fresh all-zero page-map entry, every flag setter of the common
paging module called with the argument whose documented meaning is "leave the
bit clear" (`set_present(false)`, ..., `set_caching(true)`,
`set_executable(true)`) nevertheless sets that bit to 1, because the
non-setting branch of `bitbool!`/`inverse_bitbool!` XOR-toggles the bit; and
consequently none of these calls is idempotent - applying the same call twice
differs from applying it once. -/
theorem C10_setters_xor_toggle :
    (PageMapEntry.set_present 0 false).testBit 0 = true ∧
    (PageMapEntry.set_writable 0 false).testBit 1 = true ∧
    (PageMapEntry.set_user_mode 0 false).testBit 2 = true ∧
    (PageMapEntry.set_write_through_cache 0 false).testBit 3 = true ∧
    (PageMapEntry.set_accessed 0 false).testBit 5 = true ∧
    (PageMapEntry.set_caching 0 true).testBit 4 = true ∧
    (PageMapEntry.set_executable 0 true).testBit 63 = true ∧
    PageMapEntry.set_present (PageMapEntry.set_present 0 false) false ≠
      PageMapEntry.set_present 0 false ∧
    PageMapEntry.set_writable (PageMapEntry.set_writable 0 false) false ≠
      PageMapEntry.set_writable 0 false ∧
    PageMapEntry.set_user_mode (PageMapEntry.set_user_mode 0 false) false ≠
      PageMapEntry.set_user_mode 0 false ∧
    PageMapEntry.set_write_through_cache
        (PageMapEntry.set_write_through_cache 0 false) false ≠
      PageMapEntry.set_write_through_cache 0 false ∧
    PageMapEntry.set_accessed (PageMapEntry.set_accessed 0 false) false ≠
      PageMapEntry.set_accessed 0 false ∧
    PageMapEntry.set_caching (PageMapEntry.set_caching 0 true) true ≠
      PageMapEntry.set_caching 0 true ∧
    PageMapEntry.set_executable (PageMapEntry.set_executable 0 true) true ≠
      PageMapEntry.set_executable 0 true := by decide

/-- C5 counterexample: in the bootloader's own builders the claim fails. The
`PageTableEntryBuilder` accepts the misaligned address 1 even with debug
assertions on (it performs no alignment check and even discards the address),
and the `PageMapLevel4EntryBuilder` accepts the same misaligned address in a
release build (its check is `#[cfg(debug_assertions)]`-gated). -/
theorem C5_counterexample :
    (1 : Nat) % 4096 ≠ 0 ∧
    PageTableEntryBuilder.build true
        { present := false, writable := false, user_mode := false
          write_through := false, cache_disabled := false, accessed := false
          dirty := false, pat := false, global := false, address := 1
          protection_key := none, execute_disable := false } = some 0 ∧
    PageMapLevel4EntryBuilder.build false
        { present := false, writable := false, user_mode := false
          write_through := false, cache_disabled := false, accessed := false
          address := 1, execute_disable := false } = some 1 := by decide

/-- C5 (amended): the alignment failure holds for `set_address` of the common
paging module - identically generated at every page-map level, in release as
well as debug builds - and for the bootloader's level-4 builder only when
debug assertions are on. -/
theorem C5_set_address_alignment :
    (∀ e address : Nat, address % 4096 ≠ 0 →
      PageMapEntry.set_address e address = none) ∧
    (∀ b : PageMapLevel4EntryBuilder, b.address % 4096 ≠ 0 →
      PageMapLevel4EntryBuilder.build true b = none) := by
  constructor
  · intro e address h
    simp [PageMapEntry.set_address, h]
  · intro b h
    simp [PageMapLevel4EntryBuilder.build, h]

/-- C5 witness: the amended theorem applied at the misaligned address 1. -/
theorem C5_set_address_alignment_witness :
    PageMapEntry.set_address 0 1 = none ∧
    PageMapLevel4EntryBuilder.build true
        { present := false, writable := false, user_mode := false
          write_through := false, cache_disabled := false, accessed := false
          address := 1, execute_disable := false } = none :=
  ⟨C5_set_address_alignment.1 0 1 (by decide),
   C5_set_address_alignment.2 _ (by decide)⟩

/-- C7: `SegmentDescriptorBuilder::build` fails for every limit above
`U20_MAX`, fails whenever the flags request both the long-mode and the
protected-mode bit, and succeeds whenever neither failure condition holds and
the privilege is at most 3. -/
theorem C7_gdt_builder_failure_conditions (b : SegmentDescriptorBuilder) :
    (b.limit > U20_MAX → b.build = none) ∧
    (b.flags.long = true ∧ b.flags.protected_mode = true → b.build = none) ∧
    (b.limit ≤ U20_MAX → ¬(b.flags.long = true ∧ b.flags.protected_mode = true) →
      b.access.privilege ≤ 3 → b.build.isSome = true) := by
  obtain ⟨base, limit, ⟨p, pr, lo⟩, ⟨a1, priv, a2, a3, a4, a5, a6⟩⟩ := b
  refine ⟨fun h => ?_, fun h => ?_, fun h1 h2 h3 => ?_⟩
  · simp only [SegmentDescriptorBuilder.build]
    rw [if_pos h]
  · simp only at h
    obtain ⟨hl, hp⟩ := h
    subst hl; subst hp
    simp only [SegmentDescriptorBuilder.build]
    rw [flags_build_conflict p]
    split <;> rfl
  · simp only at h1 h2 h3
    have hf := (flags_build_spec p pr lo (by tauto)).1
    have ha := (access_build_spec priv (by omega) a1 a2 a3 a4 a5 a6).1
    obtain ⟨f, hfe⟩ := Option.isSome_iff_exists.mp hf
    obtain ⟨a, hae⟩ := Option.isSome_iff_exists.mp ha
    simp only [SegmentDescriptorBuilder.build]
    rw [if_neg (by omega), hfe, hae]
    rfl

/-- C7 witness: the failure and success conditions exercised at concrete
inputs - an oversized limit, a long+protected flag conflict, and the
bootloader's own executable long-mode descriptor arguments. -/
theorem C7_gdt_builder_failure_conditions_witness :
    SegmentDescriptorBuilder.build
        { base := 0, limit := 1048576, flags := ⟨true, false, true⟩
          access := ⟨true, 0, true, true, false, true, true⟩ } = none ∧
    SegmentDescriptorBuilder.build
        { base := 0, limit := 0, flags := ⟨true, true, true⟩
          access := ⟨true, 0, true, true, false, true, true⟩ } = none ∧
    (SegmentDescriptorBuilder.build
        { base := 0, limit := 1048575, flags := ⟨true, false, true⟩
          access := ⟨true, 0, true, true, false, true, true⟩ }).isSome = true :=
  ⟨(C7_gdt_builder_failure_conditions _).1 (by decide),
   (C7_gdt_builder_failure_conditions _).2.1 (by decide),
   (C7_gdt_builder_failure_conditions _).2.2 (by decide) (by decide) (by decide)⟩

/-- C3 counterexample: a header that is valid in every checked respect but
whose object type is `Exectuable` (not position-independent `Dyn`) is
accepted by `FileHeader::try_from_raw` - the validator never examines the
object type and `ElfError` has no variant for it. -/
theorem C3_counterexample :
    FileHeader.try_from_raw
        { magic_bytes := [0x7F, 0x45, 0x4C, 0x46], bitness := .X64
          endianess := .Little, header_version := 1, abi := .SystemV
          abi_version := 0, object_type := .Exectuable, instruction_set := 0x3E
          elf_version := 1, entry_point := 0, program_table_offset := 0
          section_table_offset := 0, flags := 0, size := 61
          program_header_size := 56, program_table_entries := 0
          section_header_size := 64, section_table_entries := 0
          section_names_index := 0 } =
      .ok { magic_bytes := [0x7F, 0x45, 0x4C, 0x46], bitness := .X64
            endianess := .Little, header_version := 1, abi := .SystemV
            abi_version := 0, object_type := .Exectuable, instruction_set := 0x3E
            elf_version := 1, entry_point := 0, program_table_offset := 0
            section_table_offset := 0, flags := 0, size := 61
            program_header_size := 56, program_table_entries := 0
            section_header_size := 64, section_table_entries := 0
            section_names_index := 0 } ∧
    ObjectType.Exectuable ≠ ObjectType.Dyn := by
  exact ⟨rfl, by decide⟩

/-- C3 (amended): `try_from_raw` checks magic bytes, bitness, endianness, the
two version fields, the ABI and the three header sizes - each failure
returning the distinct `ElfError` variant naming that check - and accepts
exactly the headers passing all of them; the object type is never examined,
so non-`Dyn` headers are not rejected. -/
theorem C3_validator_error_variants (h : FileHeader) :
    (h.try_from_raw = .error .NoMagicBytes ↔
      h.magic_bytes ≠ [0x7F, 0x45, 0x4C, 0x46]) ∧
    (h.try_from_raw = .error .Bitness32 ↔
      h.magic_bytes = [0x7F, 0x45, 0x4C, 0x46] ∧ h.bitness ≠ .X64) ∧
    (h.try_from_raw = .error .BadEndianness ↔
      h.magic_bytes = [0x7F, 0x45, 0x4C, 0x46] ∧ h.bitness = .X64 ∧
      h.endianess ≠ Endianess.NATIVE) ∧
    (h.try_from_raw = .error .BadVersion ↔
      h.magic_bytes = [0x7F, 0x45, 0x4C, 0x46] ∧ h.bitness = .X64 ∧
      h.endianess = Endianess.NATIVE ∧
      (h.elf_version ≠ 1 ∨ h.header_version ≠ 1)) ∧
    (h.try_from_raw = .error .BadABI ↔
      h.magic_bytes = [0x7F, 0x45, 0x4C, 0x46] ∧ h.bitness = .X64 ∧
      h.endianess = Endianess.NATIVE ∧ h.elf_version = 1 ∧
      h.header_version = 1 ∧ h.abi ≠ .SystemV) ∧
    (h.try_from_raw = .error (.BadHeaderSize .Section) ↔
      h.magic_bytes = [0x7F, 0x45, 0x4C, 0x46] ∧ h.bitness = .X64 ∧
      h.endianess = Endianess.NATIVE ∧ h.elf_version = 1 ∧
      h.header_version = 1 ∧ h.abi = .SystemV ∧
      h.section_header_size ≠ SectionHeader.size_of) ∧
    (h.try_from_raw = .error (.BadHeaderSize .Program) ↔
      h.magic_bytes = [0x7F, 0x45, 0x4C, 0x46] ∧ h.bitness = .X64 ∧
      h.endianess = Endianess.NATIVE ∧ h.elf_version = 1 ∧
      h.header_version = 1 ∧ h.abi = .SystemV ∧
      h.section_header_size = SectionHeader.size_of ∧
      h.program_header_size ≠ ProgramHeader.size_of) ∧
    (h.try_from_raw = .error (.BadHeaderSize .File) ↔
      h.magic_bytes = [0x7F, 0x45, 0x4C, 0x46] ∧ h.bitness = .X64 ∧
      h.endianess = Endianess.NATIVE ∧ h.elf_version = 1 ∧
      h.header_version = 1 ∧ h.abi = .SystemV ∧
      h.section_header_size = SectionHeader.size_of ∧
      h.program_header_size = ProgramHeader.size_of ∧
      h.size ≠ FileHeader.size_of) ∧
    (h.try_from_raw = .ok h ↔
      h.magic_bytes = [0x7F, 0x45, 0x4C, 0x46] ∧ h.bitness = .X64 ∧
      h.endianess = Endianess.NATIVE ∧ h.elf_version = 1 ∧
      h.header_version = 1 ∧ h.abi = .SystemV ∧
      h.section_header_size = SectionHeader.size_of ∧
      h.program_header_size = ProgramHeader.size_of ∧
      h.size = FileHeader.size_of) := by
  unfold FileHeader.try_from_raw
  split_ifs <;> simp_all <;> tauto

/-- C8: a header with correct magic bytes but 32-bit bitness fails
`try_from_raw` with the `Bitness32` variant specifically; and a fully correct
header is returned unchanged, with `section_table_range` equal to the
header's own offset and offset + entry-size * entry-count (entry-size being
the compiled-in section-header size the validator has checked the header's
field against). -/
theorem C8_bitness_and_bounds :
    (∀ h : FileHeader, h.magic_bytes = [0x7F, 0x45, 0x4C, 0x46] →
      h.bitness = .X32 → h.try_from_raw = .error .Bitness32) ∧
    (∀ h : FileHeader, h.magic_bytes = [0x7F, 0x45, 0x4C, 0x46] →
      h.bitness = .X64 → h.endianess = Endianess.NATIVE →
      h.elf_version = 1 → h.header_version = 1 → h.abi = .SystemV →
      h.section_header_size = SectionHeader.size_of →
      h.program_header_size = ProgramHeader.size_of →
      h.size = FileHeader.size_of →
      h.try_from_raw = .ok h ∧
      h.section_table_range =
        (h.section_table_offset,
         h.section_table_offset +
           h.section_header_size * h.section_table_entries)) := by
  constructor
  · intro h h1 h2
    simp [FileHeader.try_from_raw, h1, h2]
  · intro h h1 h2 h3 h4 h5 h6 h7 h8 h9
    refine ⟨by simp [FileHeader.try_from_raw, h1, h2, h3, h4, h5, h6, h7, h8, h9], ?_⟩
    simp [FileHeader.section_table_range, h7]

/-- C8 witness: the theorem applied to a 32-bit header and to a fully valid
`Dyn` header. -/
theorem C8_bitness_and_bounds_witness :
    FileHeader.try_from_raw
        { magic_bytes := [0x7F, 0x45, 0x4C, 0x46], bitness := .X32
          endianess := .Little, header_version := 1, abi := .SystemV
          abi_version := 0, object_type := .Dyn, instruction_set := 0x3E
          elf_version := 1, entry_point := 0, program_table_offset := 0
          section_table_offset := 0, flags := 0, size := 61
          program_header_size := 56, program_table_entries := 0
          section_header_size := 64, section_table_entries := 0
          section_names_index := 0 } = .error .Bitness32 ∧
    (FileHeader.try_from_raw
        { magic_bytes := [0x7F, 0x45, 0x4C, 0x46], bitness := .X64
          endianess := .Little, header_version := 1, abi := .SystemV
          abi_version := 0, object_type := .Dyn, instruction_set := 0x3E
          elf_version := 1, entry_point := 0x1000, program_table_offset := 64
          section_table_offset := 0x2000, flags := 0, size := 61
          program_header_size := 56, program_table_entries := 2
          section_header_size := 64, section_table_entries := 3
          section_names_index := 1 } =
      .ok { magic_bytes := [0x7F, 0x45, 0x4C, 0x46], bitness := .X64
            endianess := .Little, header_version := 1, abi := .SystemV
            abi_version := 0, object_type := .Dyn, instruction_set := 0x3E
            elf_version := 1, entry_point := 0x1000, program_table_offset := 64
            section_table_offset := 0x2000, flags := 0, size := 61
            program_header_size := 56, program_table_entries := 2
            section_header_size := 64, section_table_entries := 3
            section_names_index := 1 } ∧
      FileHeader.section_table_range
          { magic_bytes := [0x7F, 0x45, 0x4C, 0x46], bitness := .X64
            endianess := .Little, header_version := 1, abi := .SystemV
            abi_version := 0, object_type := .Dyn, instruction_set := 0x3E
            elf_version := 1, entry_point := 0x1000, program_table_offset := 64
            section_table_offset := 0x2000, flags := 0, size := 61
            program_header_size := 56, program_table_entries := 2
            section_header_size := 64, section_table_entries := 3
            section_names_index := 1 } = (0x2000, 0x2000 + 64 * 3)) :=
  ⟨C8_bitness_and_bounds.1 _ rfl rfl,
   C8_bitness_and_bounds.2 _ rfl rfl rfl rfl rfl rfl rfl rfl rfl⟩

/-- C6 counterexample: on the trace of `enable_64_bit_mode` (instantiated at a
concrete descriptor and page-map address) the spec's ordering fails: the PAE
write does not precede the CR3 load (CR3 is loaded first), and the GDT load
does not come after the CR0 write (it is the very first step). -/
theorem C6_counterexample :
    ¬((enable_64_bit_mode ⟨0x500, 23⟩ 0x1000).findIdx Instr.sets_pae <
        (enable_64_bit_mode ⟨0x500, 23⟩ 0x1000).findIdx Instr.is_mov_cr3 ∧
      (enable_64_bit_mode ⟨0x500, 23⟩ 0x1000).findIdx Instr.sets_lme <
        (enable_64_bit_mode ⟨0x500, 23⟩ 0x1000).findIdx Instr.writes_cr0 ∧
      (enable_64_bit_mode ⟨0x500, 23⟩ 0x1000).countP Instr.writes_cr0 = 1 ∧
      (enable_64_bit_mode ⟨0x500, 23⟩ 0x1000).countP
          Instr.cr0_write_sets_pe_pg = 1 ∧
      (enable_64_bit_mode ⟨0x500, 23⟩ 0x1000).findIdx Instr.writes_cr0 <
        (enable_64_bit_mode ⟨0x500, 23⟩ 0x1000).findIdx Instr.is_lgdt) := by
  decide

/-- C6 (amended): the actual order of the transition sequence, for every
descriptor and page-map address: the GDT load comes first, then the CR3 load,
then the PAE write, then the LME write, and a single CR0 write setting PE and
PG together comes last. The LME-before-CR0 and one-combined-CR0-write parts of
the claim hold; PAE-before-CR3 and GDT-after-CR0 do not. -/
theorem C6_actual_order (g : GDTDescriptor) (pml4 : Nat) :
    (enable_64_bit_mode g pml4).findIdx Instr.is_lgdt = 0 ∧
    (enable_64_bit_mode g pml4).findIdx Instr.is_mov_cr3 = 1 ∧
    (enable_64_bit_mode g pml4).findIdx Instr.sets_pae = 2 ∧
    (enable_64_bit_mode g pml4).findIdx Instr.sets_lme = 3 ∧
    (enable_64_bit_mode g pml4).findIdx Instr.writes_cr0 = 4 ∧
    (enable_64_bit_mode g pml4).countP Instr.writes_cr0 = 1 ∧
    (enable_64_bit_mode g pml4).countP Instr.cr0_write_sets_pe_pg = 1 ∧
    (enable_64_bit_mode g pml4).findIdx Instr.sets_lme <
      (enable_64_bit_mode g pml4).findIdx Instr.writes_cr0 := by
  have h5 : Nat.testBit 32 5 = true := by decide
  have h8 : Nat.testBit 256 8 = true := by decide
  have h01 : Nat.testBit 2147483649 0 = true := by decide
  have h31 : Nat.testBit 2147483649 31 = true := by decide
  simp [enable_64_bit_mode, List.findIdx_cons, List.countP_cons,
    Instr.is_lgdt, Instr.is_mov_cr3, Instr.sets_pae, Instr.sets_lme,
    Instr.writes_cr0, Instr.cr0_write_sets_pe_pg, h5, h8, h01, h31]

/-- C4 counterexample: running `enable_64_bit_mode` from a CPU state with a
null code-segment selector ends with CR0.PE, CR0.PG, CR4.PAE and EFER.LME
set and CR3 holding the given page-map-level-4 address - yet the
code-segment selector is still 0, not a selector for descriptor 1 (the
long-mode executable entry of the 3-entry GDT): the sequence contains no far
jump to reload CS, so the claim's final conjunct fails. -/
theorem C4_counterexample :
    (runInstrs ⟨0, 0, 0, 0, false, 0⟩
        (enable_64_bit_mode ⟨0x500, 23⟩ 0x1000)).cr0.testBit 0 = true ∧
    (runInstrs ⟨0, 0, 0, 0, false, 0⟩
        (enable_64_bit_mode ⟨0x500, 23⟩ 0x1000)).cr0.testBit 31 = true ∧
    (runInstrs ⟨0, 0, 0, 0, false, 0⟩
        (enable_64_bit_mode ⟨0x500, 23⟩ 0x1000)).cr4.testBit 5 = true ∧
    (runInstrs ⟨0, 0, 0, 0, false, 0⟩
        (enable_64_bit_mode ⟨0x500, 23⟩ 0x1000)).efer.testBit 8 = true ∧
    (runInstrs ⟨0, 0, 0, 0, false, 0⟩
        (enable_64_bit_mode ⟨0x500, 23⟩ 0x1000)).cr3 = 0x1000 ∧
    (runInstrs ⟨0, 0, 0, 0, false, 0⟩
        (enable_64_bit_mode ⟨0x500, 23⟩ 0x1000)).cs = 0 ∧
    ¬((runInstrs ⟨0, 0, 0, 0, false, 0⟩
        (enable_64_bit_mode ⟨0x500, 23⟩ 0x1000)).cs / 8 = 1) := by
  decide

/-- C4 (amended): from any starting CPU state, for any built GDT descriptor
and any 32-bit page-map-level-4 address, the completed sequence leaves
CR0.PE = 1, CR0.PG = 1, CR4.PAE = 1, EFER bit 8 (LME) = 1 and CR3 equal to
the given address; an `lgdt` has overwritten GDTR, but with a
pseudo-descriptor read from the address of the descriptor reference (wrong
indirection, and field order mismatching `lgdt`'s limit-first layout), so
the model does not equate GDTR with the built descriptor; and the
code-segment selector is exactly what it was before, since no step of the
sequence reloads CS. -/
theorem C4_final_state (s0 : CpuState) (g : GDTDescriptor) (pml4 : Nat)
    (hp : pml4 < 2 ^ 32) :
    (runInstrs s0 (enable_64_bit_mode g pml4)).cr0.testBit 0 = true ∧
    (runInstrs s0 (enable_64_bit_mode g pml4)).cr0.testBit 31 = true ∧
    (runInstrs s0 (enable_64_bit_mode g pml4)).cr4.testBit 5 = true ∧
    (runInstrs s0 (enable_64_bit_mode g pml4)).efer.testBit 8 = true ∧
    (runInstrs s0 (enable_64_bit_mode g pml4)).cr3 = pml4 ∧
    (runInstrs s0 (enable_64_bit_mode g pml4)).gdtr_written = true ∧
    (runInstrs s0 (enable_64_bit_mode g pml4)).cs = s0.cs := by
  have h01 : Nat.testBit 2147483649 0 = true := by decide
  have h31 : Nat.testBit 2147483649 31 = true := by decide
  have h5 : Nat.testBit 32 5 = true := by decide
  have h8 : Nat.testBit 256 8 = true := by decide
  have hp' : pml4 < 4294967296 := by omega
  simp [runInstrs, enable_64_bit_mode, Instr.step, Nat.testBit_lor,
    h01, h31, h5, h8, Nat.mod_eq_of_lt hp', hp']

/-- C4 witness: the amended theorem applied at a concrete starting state
with a concrete descriptor and page-map address. -/
theorem C4_final_state_witness :
    (runInstrs ⟨3, 5, 7, 11, false, 24⟩
        (enable_64_bit_mode ⟨0x500, 23⟩ 0x2000)).cr0.testBit 0 = true ∧
    (runInstrs ⟨3, 5, 7, 11, false, 24⟩
        (enable_64_bit_mode ⟨0x500, 23⟩ 0x2000)).cr0.testBit 31 = true ∧
    (runInstrs ⟨3, 5, 7, 11, false, 24⟩
        (enable_64_bit_mode ⟨0x500, 23⟩ 0x2000)).cr4.testBit 5 = true ∧
    (runInstrs ⟨3, 5, 7, 11, false, 24⟩
        (enable_64_bit_mode ⟨0x500, 23⟩ 0x2000)).efer.testBit 8 = true ∧
    (runInstrs ⟨3, 5, 7, 11, false, 24⟩
        (enable_64_bit_mode ⟨0x500, 23⟩ 0x2000)).cr3 = 0x2000 ∧
    (runInstrs ⟨3, 5, 7, 11, false, 24⟩
        (enable_64_bit_mode ⟨0x500, 23⟩ 0x2000)).gdtr_written = true ∧
    (runInstrs ⟨3, 5, 7, 11, false, 24⟩
        (enable_64_bit_mode ⟨0x500, 23⟩ 0x2000)).cs =
      (⟨3, 5, 7, 11, false, 24⟩ : CpuState).cs :=
  C4_final_state ⟨3, 5, 7, 11, false, 24⟩ ⟨0x500, 23⟩ 0x2000 (by decide)

/-- The scan loop's behaviour when the first sentinel past the current state
sits `k` sectors ahead: the loop reads sectors `sector, ..., sector + k`,
stops there, and ends with the sector counter one past the matched sector. -/
theorem load_program_loop_spec (disk : Nat → Nat) :
    ∀ (k : Nat) (st : LoadProgramState) (fuel : Nat),
      st.sig ≠ 0xDEADBEEF →
      st.sector + k + 1 < 2 ^ 64 →
      (∀ i, i < k → disk (st.sector + i) ≠ 0xDEADBEEF) →
      disk (st.sector + k) = 0xDEADBEEF →
      k + 1 < fuel →
      ∃ addr, load_program_loop disk fuel st =
        some { sector := st.sector + k + 1, address := addr,
               sig := 0xDEADBEEF,
               reads := st.reads ++ List.range' st.sector (k + 1) } := by
  intro k
  induction k with
  | zero =>
    intro st fuel h0 hb hpre hk hf
    obtain ⟨f, rfl⟩ : ∃ f, fuel = f + 2 := ⟨fuel - 2, by omega⟩
    refine ⟨(st.address + 512) % 2 ^ 16, ?_⟩
    simp only [load_program_loop, if_neg h0]
    have hsig : disk st.sector = 0xDEADBEEF := by simpa using hk
    simp only [load_program_loop, hsig, if_pos rfl]
    have hs : (st.sector + 1) % 2 ^ 64 = st.sector + 1 := Nat.mod_eq_of_lt (by omega)
    simp [hs, List.range']
    omega
  | succ k ih =>
    intro st fuel h0 hb hpre hk hf
    obtain ⟨f, rfl⟩ : ∃ f, fuel = f + 1 := ⟨fuel - 1, by omega⟩
    simp only [load_program_loop, if_neg h0]
    have hs : (st.sector + 1) % 2 ^ 64 = st.sector + 1 := Nat.mod_eq_of_lt (by omega)
    have h0' : disk st.sector ≠ 0xDEADBEEF := by
      have := hpre 0 (by omega)
      simpa using this
    obtain ⟨addr, heq⟩ := ih
      { sector := (st.sector + 1) % 2 ^ 64
        address := (st.address + 512) % 2 ^ 16
        sig := disk st.sector
        reads := st.reads ++ [st.sector] }
      f h0' (by simp [hs]; omega)
      (by
        intro i hi
        rw [hs]
        have := hpre (i + 1) (by omega)
        rw [show st.sector + 1 + i = st.sector + (i + 1) by omega]
        exact this)
      (by rw [hs]; have := hk; rw [show st.sector + (k + 1) = st.sector + 1 + k by omega] at this; exact this)
      (by omega)
    refine ⟨addr, ?_⟩
    rw [heq]
    have hrange : List.range' st.sector (k + 1 + 1) =
        st.sector :: List.range' (st.sector + 1) (k + 1) := rfl
    simp [hs, hrange]
    omega

/-- C1: for every disk of N sectors (N ≥ 1) in which only sector
`start + N - 1` ends with the 32-bit sentinel `0xDEADBEEF`, `load_program`
started at `start` issues reads for exactly the N sectors
`start, ..., start + N - 1` and returns `start + N`, the LBA of the sector
immediately after the last one read. (`start + N < 2 ^ 16` keeps the
returned `u16` from truncating; the spec already makes destination-pointer
overflow, which strikes far earlier, a caller responsibility.) -/
theorem C1_load_program_end_lba (disk : Nat → Nat) (start N fuel : Nat)
    (h1 : 1 ≤ N) (h2 : start + N < 2 ^ 16)
    (h3 : ∀ i, i < N - 1 → disk (start + i) ≠ 0xDEADBEEF)
    (h4 : disk (start + (N - 1)) = 0xDEADBEEF)
    (h5 : N < fuel) :
    load_program disk start fuel = some (start + N, List.range' start N) ∧
    (List.range' start N).length = N := by
  obtain ⟨addr, heq⟩ := load_program_loop_spec disk (N - 1)
    { sector := start, address := 0x7E00, sig := 0, reads := [] } fuel
    (by simp) (by simp; omega) (by simpa using h3) (by simpa using h4)
    (by omega)
  constructor
  · unfold load_program
    rw [heq]
    have hN : N - 1 + 1 = N := by omega
    simp only [hN]
    simp [Option.map,
      Nat.mod_eq_of_lt (show start + (N - 1) + 1 < 2 ^ 16 by omega)]
    omega
  · simp

/-- C1 witness: a 3-sector disk whose sentinel sits only at the end of sector
2; the loader reads sectors 0, 1, 2 and returns end-LBA 3. -/
theorem C1_load_program_end_lba_witness :
    load_program (fun s => if s = 2 then 0xDEADBEEF else 0) 0 5 =
      some (0 + 3, List.range' 0 3) ∧ (List.range' 0 3).length = 3 :=
  C1_load_program_end_lba (fun s => if s = 2 then 0xDEADBEEF else 0) 0 3 5
    (by decide) (by decide) (by decide) (by decide) (by decide)

/-- C9: when the sentinel first appears as the trailing word of sector `k`,
`load_program` issues reads exactly for `start, ..., k` - every read LBA is
at most `k` - because the scan loop exits on the first matching sector. -/
theorem C9_load_program_never_reads_past_sentinel (disk : Nat → Nat)
    (start k fuel : Nat) (hsk : start ≤ k) (hb : k + 1 < 2 ^ 64)
    (hfirst : ∀ s, start ≤ s → s < k → disk s ≠ 0xDEADBEEF)
    (hsent : disk k = 0xDEADBEEF)
    (hf : k - start + 1 < fuel) :
    ∃ endSector, load_program disk start fuel =
      some (endSector, List.range' start (k - start + 1)) ∧
      ∀ r ∈ List.range' start (k - start + 1), r ≤ k := by
  obtain ⟨addr, heq⟩ := load_program_loop_spec disk (k - start)
    { sector := start, address := 0x7E00, sig := 0, reads := [] } fuel
    (by simp) (by simp; omega)
    (by intro i hi; simp only; exact hfirst (start + i) (by omega) (by omega))
    (by simpa [Nat.add_sub_cancel' hsk] using hsent)
    (by omega)
  refine ⟨(start + (k - start) + 1) % 2 ^ 16, ?_, ?_⟩
  · unfold load_program
    rw [heq]
    simp
  · intro r hr
    rw [List.mem_range'] at hr
    obtain ⟨i, hi, rfl⟩ := hr
    omega

/-- C9 witness: a disk whose sentinel first appears at sector 5; starting
from sector 0 the loader reads exactly sectors 0-5, none beyond 5. -/
theorem C9_load_program_never_reads_past_sentinel_witness :
    ∃ endSector,
      load_program (fun s => if s = 5 then 0xDEADBEEF else 0) 0 10 =
        some (endSector, List.range' 0 (5 - 0 + 1)) ∧
      ∀ r ∈ List.range' 0 (5 - 0 + 1), r ≤ 5 :=
  C9_load_program_never_reads_past_sentinel
    (fun s => if s = 5 then 0xDEADBEEF else 0) 0 5 10
    (by decide) (by norm_num) (by decide) (by decide) (by decide)

/-- C2 counterexample: two builder inputs that differ only in the limit
(0 versus 1, both valid 20-bit limits, 1 not divisible by 16) produce
bit-identical descriptors, because `build` shifts the limit right by 4 before
packing it; no decode function whatsoever can map the common output back to
both limits, so the claimed full round-trip fails. -/
theorem C2_counterexample :
    SegmentDescriptorBuilder.build
        { base := 0, limit := 0, flags := ⟨false, false, false⟩
          access := ⟨false, 0, false, false, false, false, false⟩ } =
      SegmentDescriptorBuilder.build
        { base := 0, limit := 1, flags := ⟨false, false, false⟩
          access := ⟨false, 0, false, false, false, false, false⟩ } ∧
    ({ base := 0, limit := 0, flags := ⟨false, false, false⟩
       access := ⟨false, 0, false, false, false, false, false⟩ } :
        SegmentDescriptorBuilder) ≠
      { base := 0, limit := 1, flags := ⟨false, false, false⟩
        access := ⟨false, 0, false, false, false, false, false⟩ } := by
  decide

/-- C2 (amended): the round-trip holds exactly on the limits the emitted
layout can represent: for every base, flags and access, and every valid limit
that is divisible by 16 and has bits 9-11 clear (so that the shifted limit
byte cannot collide with the flag bits ORed over it), decoding the built
descriptor returns the original builder; for other limits the round-trip is
impossible (see the counterexample, where two limits share one output). -/
theorem C2_descriptor_roundtrip_restricted (b : SegmentDescriptorBuilder)
    (d : List Nat) (hbase : b.base < 2 ^ 32) (h16 : b.limit % 16 = 0)
    (h512 : b.limit / 512 % 8 = 0) (hbuild : b.build = some d) :
    spec_decode_descriptor d = b := by
  obtain ⟨base, limit, ⟨p, pr, lo⟩, ⟨a1, priv, a2, a3, a4, a5, a6⟩⟩ := b
  simp only at hbase h16 h512
  unfold SegmentDescriptorBuilder.build at hbuild
  simp only at hbuild
  by_cases hlim : limit > U20_MAX
  · rw [if_pos hlim] at hbuild
    cases hbuild
  rw [if_neg hlim] at hbuild
  have hvalid : ¬(lo = true ∧ pr = true) := by
    rintro ⟨rfl, rfl⟩
    rw [flags_build_conflict p] at hbuild
    cases hbuild
  have hfspec := flags_build_spec p pr lo hvalid
  obtain ⟨f, hfe⟩ := Option.isSome_iff_exists.mp hfspec.1
  rw [hfe] at hbuild hfspec
  simp only [Option.getD_some] at hfspec
  have hpriv : priv < 4 := by
    by_contra hgt
    rw [access_build_priv_too_big ⟨a1, priv, a2, a3, a4, a5, a6⟩
      (by simp only; omega)] at hbuild
    cases hbuild
  have haspec := access_build_spec priv hpriv a1 a2 a3 a4 a5 a6
  obtain ⟨a, hae⟩ := Option.isSome_iff_exists.mp haspec.1
  rw [hae] at hbuild haspec
  simp only [Option.getD_some] at haspec
  rw [Option.some.injEq] at hbuild
  subst hbuild
  have hU : limit ≤ 1048575 := by
    simpa [U20_MAX] using hlim
  have hshift : limit >>> 4 = limit / 16 := by
    rw [Nat.shiftRight_eq_div_pow]
  have e1 : limit / 512 = limit / 16 / 32 := by
    rw [Nat.div_div_eq_div_mul]
  rw [e1] at h512
  have hm0 : u32_byte (limit / 16) 0 = limit / 16 % 256 := by
    simp [u32_byte]
  have hm1 : u32_byte (limit / 16) 1 = limit / 16 / 256 % 256 := by
    simp [u32_byte]
  have hm2 : u32_byte (limit / 16) 2 = 0 := by
    have : limit / 16 / 65536 = 0 := by omega
    simp [u32_byte, pow_succ]
    omega
  have hmlt : limit / 16 % 256 < 32 := by omega
  have hmdef : limit / 16 % 256 = limit / 16 % 32 := by omega
  have hf256 : f < 256 := hfspec.2.2.2.2.2
  have hf32 : f % 32 = 0 := hfspec.2.2.2.2.1
  have hf0 : f / 32 < 8 := by omega
  have hlor := lor_small_disjoint (f / 32) hf0 (limit / 16 % 256) hmlt
  have hfrw : 32 * (f / 32) = f := by omega
  rw [hfrw] at hlor
  obtain ⟨hadd, hb7, hb6, hb5, hb32⟩ := hlor
  simp only [spec_decode_descriptor, hshift, hm0, hm1, hm2,
    List.getD_cons_zero, List.getD_cons_succ, hadd]
  simp only [SegmentDescriptorBuilder.mk.injEq, SegmentFlagsBuilder.mk.injEq,
    SegmentAccessBuilder.mk.injEq]
  refine ⟨?_, ?_, ⟨?_, ?_, ?_⟩, ?_, ?_, ?_, ?_, ?_, ?_, ?_⟩
  · simp only [u32_byte]
    norm_num
    omega
  · rw [hb32]
    omega
  · rw [hb7]
    exact hfspec.2.1
  · rw [hb6]
    exact hfspec.2.2.1
  · rw [hb5]
    exact hfspec.2.2.2.1
  · exact haspec.2.1
  · exact haspec.2.2.1
  · exact haspec.2.2.2.1
  · exact haspec.2.2.2.2.1
  · exact haspec.2.2.2.2.2.1
  · exact haspec.2.2.2.2.2.2.1
  · exact haspec.2.2.2.2.2.2.2

/-- C2 witness: the restricted round-trip at a concrete descriptor - base
`0x123456`, limit `0x11000` (divisible by 16, bits 9-11 clear), long-mode
paged flags and a ring-2 access byte - whose built bytes decode back to the
original builder. -/
theorem C2_descriptor_roundtrip_restricted_witness :
    spec_decode_descriptor [86, 160, 218, 52, 18, 0, 17, 0] =
      { base := 1193046, limit := 69632, flags := ⟨true, false, true⟩
        access := ⟨true, 2, true, true, false, true, false⟩ } :=
  C2_descriptor_roundtrip_restricted
    { base := 1193046, limit := 69632, flags := ⟨true, false, true⟩
      access := ⟨true, 2, true, true, false, true, false⟩ }
    [86, 160, 218, 52, 18, 0, 17, 0]
    (by decide) (by decide) (by decide) (by decide)
